import Mathlib

/-!
Verification development for the echo-flume WebGL fluid engine
(src/unnamed/part_001, the Vue FluidVisualizer component).

Each definition below is a shallow embedding of the corresponding
JavaScript function of the source; JS numbers are modelled as rationals,
the 32-bit integer wrap-arounds of the string hash are made explicit,
GPU textures are modelled by their provenance (which shader pass wrote
them, from which inputs), and the per-texel pressure solve is modelled
on an integer-indexed grid of rationals with clamp-to-edge sampling.
-/

/-! ## Shader-variant cache ("Material", source lines 1091-1131) -/

/-- JS `hash |= 0`: wrap an integer to a signed 32-bit value. -/
def toInt32 (n : ℤ) : ℤ := (n + 2 ^ 31) % 2 ^ 32 - 2 ^ 31

/-- One step of the loop body of `hashCode`:
`hash = (hash << 5) - hash + s.charCodeAt(i); hash |= 0;`
(the `<< 5` itself operates on 32-bit values). -/
def hashStep (hash : ℤ) (c : ℕ) : ℤ :=
  toInt32 (toInt32 (hash * 32) - hash + c)

/-- `hashCode(s)` from the source: additive/shifted character-code hash of a
string, represented as its list of character codes. -/
def hashCode (s : List ℕ) : ℤ :=
  if s.length = 0 then 0 else s.foldl hashStep 0

/-- The hash `Material.setKeywords` computes for a keyword list:
`hash += hashCode(keywords[i])` summed over the list. -/
def keywordsHash (keywords : List (List ℕ)) : ℤ :=
  (keywords.map hashCode).sum

/-- State of a `Material`: the program cache indexed by hash (modelled as an
association list), a fresh-program counter standing for `createProgram`
allocations, and the currently active program. -/
structure MaterialState where
  programs : List (ℤ × ℕ)
  nextProgram : ℕ
  activeProgram : Option ℕ
deriving DecidableEq

/-- `this.programs[hash]`: exact-key lookup in the program cache. -/
def findProgram (hash : ℤ) : List (ℤ × ℕ) → Option ℕ
  | [] => none
  | (k, p) :: rest => if k = hash then some p else findProgram hash rest

/-- Fresh `Material`: `programs = []`, `activeProgram = null`. -/
def initialMaterial : MaterialState := ⟨[], 0, none⟩

/-- `Material.setKeywords(keywords)`: sum the per-keyword hashes, look the sum
up in the cache, compile (= allocate a fresh program id) on a miss, and
activate the program if it is not already active. -/
def setKeywords (keywords : List (List ℕ)) (m : MaterialState) : MaterialState :=
  let hash := keywordsHash keywords
  match findProgram hash m.programs with
  | some program =>
      if some program = m.activeProgram then m
      else { m with activeProgram := some program }
  | none =>
      let program := m.nextProgram
      let m1 : MaterialState :=
        { programs := (hash, program) :: m.programs
          nextProgram := m.nextProgram + 1
          activeProgram := m.activeProgram }
      if some program = m1.activeProgram then m1
      else { m1 with activeProgram := some program }

/-! ## Texture contents, modelled by provenance -/

/-- Provenance of a texture's contents: which pass last wrote it and from
which inputs.  `fill r g b a` is a buffer cleared to the given color
(`gl.clearColor` state is (0,0,0,1) throughout the source). -/
inductive Tex where
  | fill (r g b a : ℚ)
  | copyBlit (src : Tex)
  | splatAdd (base : Tex) (x y cr cg cb radius : ℚ)
  | curlOf (vel : Tex)
  | vorticityOf (vel curl : Tex) (curlStrength dt : ℚ)
  | divergenceOf (vel : Tex)
  | clearScaled (value : ℚ) (src : Tex)
  | jacobiOf (pres div : Tex)
  | gradSubOf (pres vel : Tex)
  | advectOf (vel src : Tex) (dt dissipation : ℚ)
  | prefilterOf (src : Tex) (curve0 curve1 curve2 threshold : ℚ)
  | bloomBlurOf (src : Tex)
  | addBlend (base src : Tex)
  | bloomFinalOf (src : Tex) (intensity : ℚ)
deriving DecidableEq

/-! ## Framebuffer manager (source lines 850-917) -/

/-- A render target: GPU texture id, dimensions, texel sizes, contents. -/
structure FBO where
  id : ℕ
  width : ℕ
  height : ℕ
  texelSizeX : ℚ
  texelSizeY : ℚ
  content : Tex
deriving DecidableEq

/-- `createFBO(w, h, ...)`: allocate a fresh texture (the counter is the
allocator) and clear it; the clear color in effect is (0,0,0,1), set by
`gl.clearColor(0.0, 0.0, 0.0, 1.0)` at context setup. -/
def createFBO (alloc w h : ℕ) : FBO × ℕ :=
  (⟨alloc, w, h, 1 / (w : ℚ), 1 / (h : ℚ), Tex.fill 0 0 0 1⟩, alloc + 1)

/-- A double-buffered target: a read/write pair of render targets. -/
structure DoubleFBO where
  width : ℕ
  height : ℕ
  texelSizeX : ℚ
  texelSizeY : ℚ
  read : FBO
  write : FBO
deriving DecidableEq

/-- `createDoubleFBO(w, h, ...)`: two fresh single targets. -/
def createDoubleFBO (alloc w h : ℕ) : DoubleFBO × ℕ :=
  let fbo1 := createFBO alloc w h
  let fbo2 := createFBO fbo1.2 w h
  (⟨w, h, fbo1.1.texelSizeX, fbo1.1.texelSizeY, fbo1.1, fbo2.1⟩, fbo2.2)

/-- `swap()`: exchange the read and write targets. -/
def DoubleFBO.swap (t : DoubleFBO) : DoubleFBO :=
  ⟨t.width, t.height, t.texelSizeX, t.texelSizeY, t.write, t.read⟩

/-- `resizeFBO(target, w, h, ...)`: allocate a fresh target and blit the old
contents into it through the copy shader. -/
def resizeFBO (alloc : ℕ) (target : FBO) (w h : ℕ) : FBO × ℕ :=
  let n := createFBO alloc w h
  (⟨n.1.id, n.1.width, n.1.height, n.1.texelSizeX, n.1.texelSizeY,
    Tex.copyBlit target.content⟩, n.2)

/-- `resizeDoubleFBO(target, w, h, ...)`: no-op when the dimensions already
match; otherwise the read buffer is resized content-preservingly and the
write buffer is recreated from scratch. -/
def resizeDoubleFBO (alloc : ℕ) (target : DoubleFBO) (w h : ℕ) : DoubleFBO × ℕ :=
  if target.width = w ∧ target.height = h then (target, alloc)
  else
    let r := resizeFBO alloc target.read w h
    let wr := createFBO r.2 w h
    (⟨w, h, 1 / (w : ℚ), 1 / (h : ℚ), r.1, wr.1⟩, wr.2)

/-- The operations a tick performs on a double-buffered target: a pass
rendering into the write buffer, a `swap()`, or a resize. -/
inductive DOp where
  | swap
  | blitWrite (v : Tex)
  | resize (w h : ℕ)

/-- Apply one operation to a double-buffered target (with the allocator). -/
def applyDOp (s : DoubleFBO × ℕ) (op : DOp) : DoubleFBO × ℕ :=
  match op with
  | DOp.swap => (s.1.swap, s.2)
  | DOp.blitWrite v =>
      (⟨s.1.width, s.1.height, s.1.texelSizeX, s.1.texelSizeY, s.1.read,
        ⟨s.1.write.id, s.1.write.width, s.1.write.height,
          s.1.write.texelSizeX, s.1.write.texelSizeY, v⟩⟩, s.2)
  | DOp.resize w h => resizeDoubleFBO s.2 s.1 w h

/-- Run a sequence of tick operations on a double-buffered target. -/
def runDOps (s : DoubleFBO × ℕ) (ops : List DOp) : DoubleFBO × ℕ :=
  ops.foldl applyDOp s

/-! ## Configuration defaults (source lines 200-226) -/

structure SimConfig where
  SIM_RESOLUTION : ℕ
  DYE_RESOLUTION : ℕ
  CAPTURE_RESOLUTION : ℕ
  DENSITY_DISSIPATION : ℚ
  VELOCITY_DISSIPATION : ℚ
  PRESSURE : ℚ
  PRESSURE_ITERATIONS : ℕ
  CURL : ℚ
  SPLAT_RADIUS : ℚ
  SPLAT_FORCE : ℚ
  SHADING : Bool
  COLORFUL : Bool
  COLOR_UPDATE_SPEED : ℚ
  PAUSED : Bool
  BACK_COLOR : ℚ × ℚ × ℚ
  TRANSPARENT : Bool
  BLOOM : Bool
  BLOOM_ITERATIONS : ℕ
  BLOOM_RESOLUTION : ℕ
  BLOOM_INTENSITY : ℚ
  BLOOM_THRESHOLD : ℚ
  BLOOM_SOFT_KNEE : ℚ
  SUNRAYS : Bool
  SUNRAYS_RESOLUTION : ℕ
  SUNRAYS_WEIGHT : ℚ

/-- The `config` object with the source's default values. -/
def config : SimConfig :=
  { SIM_RESOLUTION := 128
    DYE_RESOLUTION := 1024
    CAPTURE_RESOLUTION := 512
    DENSITY_DISSIPATION := 1
    VELOCITY_DISSIPATION := 1 / 5
    PRESSURE := 4 / 5
    PRESSURE_ITERATIONS := 20
    CURL := 30
    SPLAT_RADIUS := 1 / 4
    SPLAT_FORCE := 6000
    SHADING := true
    COLORFUL := true
    COLOR_UPDATE_SPEED := 10
    PAUSED := false
    BACK_COLOR := (0, 0, 0)
    TRANSPARENT := false
    BLOOM := true
    BLOOM_ITERATIONS := 8
    BLOOM_RESOLUTION := 256
    BLOOM_INTENSITY := 4 / 5
    BLOOM_THRESHOLD := 3 / 5
    BLOOM_SOFT_KNEE := 7 / 10
    SUNRAYS := true
    SUNRAYS_RESOLUTION := 196
    SUNRAYS_WEIGHT := 1 }

/-! ## Bloom mip-chain allocation (`initBloomFramebuffers`, lines 959-975) -/

/-- The loop of `initBloomFramebuffers`, with `fuel = BLOOM_ITERATIONS - i`:
level `i` has dimensions `res >> (i+1)` and the loop breaks as soon as a
dimension would drop below 2. -/
def bloomLevelsGo (resW resH : ℕ) : ℕ → ℕ → List (ℕ × ℕ)
  | _, 0 => []
  | i, fuel + 1 =>
      let width := resW >>> (i + 1)
      let height := resH >>> (i + 1)
      if width < 2 ∨ height < 2 then []
      else (width, height) :: bloomLevelsGo resW resH (i + 1) fuel

/-- The dimensions of the bloom mip levels allocated by
`initBloomFramebuffers` for a base resolution and iteration count. -/
def initBloomFramebuffers (resW resH iters : ℕ) : List (ℕ × ℕ) :=
  bloomLevelsGo resW resH 0 iters

/-! ## Bloom pass (`applyBloom`, lines 1299-1342) -/

/-- The downsample loop of `applyBloom`: each mip level is overwritten with a
blur of `last`, which then becomes the new `last`.  Returns the new level
contents and the final `last`. -/
def bloomDownsample : List Tex → Tex → List Tex × Tex
  | [], last => ([], last)
  | _ :: rest, last =>
      let d := Tex.bloomBlurOf last
      let r := bloomDownsample rest d
      (d :: r.1, r.2)

/-- The upsample loop of `applyBloom`, processing base levels from the deepest
towards level 0 (the input list is already reversed): each base level is
additively blended with a blur of `last`. -/
def bloomUpsampleRev : List Tex → Tex → List Tex × Tex
  | [], last => ([], last)
  | b :: rest, last =>
      let nb := Tex.addBlend b (Tex.bloomBlurOf last)
      let r := bloomUpsampleRev rest nb
      (nb :: r.1, r.2)

/-- `applyBloom(source, destination)`, acting on the contents of the mip
levels and of the destination: early-out when fewer than two mip levels
exist, otherwise prefilter into the destination, blur down the chain,
blend back up, and write the intensity-scaled result to the destination.
Returns the new mip-level contents and the new destination contents. -/
def applyBloom (threshold softKnee intensity : ℚ) (source destination : Tex)
    (levels : List Tex) : List Tex × Tex :=
  if levels.length < 2 then (levels, destination)
  else
    let knee := threshold * softKnee + 1 / 10000
    let curve0 := threshold - knee
    let curve1 := knee * 2
    let curve2 := (1 / 4) / knee
    let pre := Tex.prefilterOf source curve0 curve1 curve2 threshold
    let down := bloomDownsample levels pre
    let up := bloomUpsampleRev (down.1.take (down.1.length - 1)).reverse down.2
    (up.1.reverse ++ down.1.drop (down.1.length - 1),
      Tex.bloomFinalOf up.2 intensity)

/-- The display pass binds the bloom texture as `uBloom` only when
`config.BLOOM` is set (source lines 1287-1290). -/
def displayUBloom (bloomEnabled : Bool) (bloomTex : Tex) : Option Tex :=
  if bloomEnabled then some bloomTex else none

/-! ## Time step (source line 1137) -/

/-- `const dt = Math.min((Date.now() - lastTime) / 1000, 0.016);` -/
def computeDt (nowMs lastTimeMs : ℚ) : ℚ :=
  min ((nowMs - lastTimeMs) / 1000) (16 / 1000)

/-! ## Emitter / audio-driven splat injection (source lines 1056-1198) -/

/-- Truncation toward zero, the rounding of the JS `%` operator. -/
def jsTrunc (q : ℚ) : ℤ := if 0 ≤ q then ⌊q⌋ else ⌈q⌉

/-- JS `a % b`: remainder with the sign of the dividend. -/
def jsMod (a b : ℚ) : ℚ := a - b * (jsTrunc (a / b) : ℚ)

/-- `const note = 12 * Math.log2(freq / 440) + 69;` — `Math.log2` is kept
abstract as a parameter (only its value at 1 matters for the claims). -/
def noteOf (log2 : ℚ → ℚ) (freq : ℚ) : ℚ :=
  12 * log2 (freq / 440) + 69

/-- `const chroma = (note % 12 + 12) % 12;` -/
def chromaOf (log2 : ℚ → ℚ) (freq : ℚ) : ℚ :=
  jsMod (jsMod (noteOf log2 freq) 12 + 12) 12

/-- The target-hue computation of the tick: chroma/12 when `freq > 20`, else
the default hue 0. -/
def targetHueOf (log2 : ℚ → ℚ) (freq : ℚ) : ℚ :=
  if freq > 20 then chromaOf log2 freq / 12 else 0

structure Rgb where
  r : ℚ
  g : ℚ
  b : ℚ
deriving DecidableEq

/-- The inner `hue2rgb(p, q, t)` helper of `hslToRgb`. -/
def hue2rgb (p q t : ℚ) : ℚ :=
  let t1 := if t < 0 then t + 1 else t
  let t2 := if t1 > 1 then t1 - 1 else t1
  if t2 < 1 / 6 then p + (q - p) * 6 * t2
  else if t2 < 1 / 2 then q
  else if t2 < 2 / 3 then p + (q - p) * (2 / 3 - t2) * 6
  else p

/-- `hslToRgb(h, s, l)` from the source. -/
def hslToRgb (h s l : ℚ) : Rgb :=
  if s = 0 then ⟨l, l, l⟩
  else
    let q := if l < 1 / 2 then l * (1 + s) else l + s - l * s
    let p := 2 * l - q
    ⟨hue2rgb p q (h + 1 / 3), hue2rgb p q h, hue2rgb p q (h - 1 / 3)⟩

/-- The audio feature frame consumed each tick. -/
structure Metrics where
  bass : ℚ
  mid : ℚ
  treble : ℚ
  volume : ℚ
  frequency : ℚ
deriving DecidableEq

/-- One requested Gaussian splat: position, directional force, dye color. -/
structure Splat where
  x : ℚ
  y : ℚ
  dx : ℚ
  dy : ℚ
  color : Rgb
deriving DecidableEq

/-- The emitter section of `update` (lines 1149-1198): advance the emitter
along its sinusoidal path (the sine/cosine values at the current time are
passed in, since `Math.sin`/`Math.cos` are transcendental), gate on
`volume * gain > 0.01`, and when active smooth the color towards the
frequency-derived hue and request one splat.  Returns the new smoothed
emitter color and the list of splats issued this tick. -/
def emitterSection (log2 : ℚ → ℚ) (sinT cosT sinT13 cosT13 : ℚ)
    (metrics : Metrics) (gain : ℚ) (currentColor : Rgb) : Rgb × List Splat :=
  let posX := 1 / 2 + sinT * (3 / 10)
  let posY := 1 / 2 + cosT13 * (3 / 10)
  let volume := metrics.volume * gain
  if volume > 1 / 100 then
    let freq := metrics.frequency
    let targetHue := targetHueOf log2 freq
    let targetRgb := hslToRgb targetHue 1 (1 / 2)
    let c : Rgb :=
      ⟨currentColor.r + (targetRgb.r - currentColor.r) * (1 / 10),
       currentColor.g + (targetRgb.g - currentColor.g) * (1 / 10),
       currentColor.b + (targetRgb.b - currentColor.b) * (1 / 10)⟩
    let r := c.r * (1 + volume)
    let g := c.g * (1 + volume)
    let b := c.b * (1 + volume)
    let dx := cosT * 100 * volume
    let dy := -sinT13 * 100 * volume
    (c, [⟨posX, posY, dx, dy, ⟨r, g, b⟩⟩])
  else (currentColor, [])

/-! ## The per-tick field pipeline at provenance level (lines 1030-1044 and
1200-1269) -/

/-- A double-buffered texture, tracked by contents only. -/
structure DTex where
  read : Tex
  write : Tex
deriving DecidableEq

/-- Render into the write buffer, then `swap()`. -/
def DTex.blitWrite (t : DTex) (v : Tex) : DTex := ⟨v, t.read⟩

/-- The simulation fields touched by a tick. -/
structure FieldState where
  velocity : DTex
  dye : DTex
  pressure : DTex
  curl : Tex
  divergence : Tex
deriving DecidableEq

/-- `splat(x, y, dx, dy, color)`: add a Gaussian impulse to the velocity
(color `(dx, dy, 0)`) and the dye (the splat color), swapping each. -/
def splatPass (radius : ℚ) (s : Splat) (st : FieldState) : FieldState :=
  { st with
    velocity := st.velocity.blitWrite
      (Tex.splatAdd st.velocity.read s.x s.y s.dx s.dy 0 radius)
    dye := st.dye.blitWrite
      (Tex.splatAdd st.dye.read s.x s.y s.color.r s.color.g s.color.b radius) }

/-- Inject a list of splats in order. -/
def applySplats (radius : ℚ) (splats : List Splat) (st : FieldState) : FieldState :=
  splats.foldl (fun acc s => splatPass radius s acc) st

/-- The fixed simulation pass sequence of `update` (lines 1200-1269): curl,
vorticity confinement, divergence, pressure decay + Jacobi loop, gradient
subtraction, velocity advection, dye advection. -/
def simPasses (curlStrength dt velDiss densDiss pressureValue : ℚ)
    (pressureIters : ℕ) (st : FieldState) : FieldState :=
  let st1 := { st with curl := Tex.curlOf st.velocity.read }
  let st2 := { st1 with
    velocity := st1.velocity.blitWrite
      (Tex.vorticityOf st1.velocity.read st1.curl curlStrength dt) }
  let st3 := { st2 with divergence := Tex.divergenceOf st2.velocity.read }
  let st4 := { st3 with
    pressure := st3.pressure.blitWrite
      (Tex.clearScaled pressureValue st3.pressure.read) }
  let st5 := { st4 with
    pressure :=
      (fun pr : DTex => pr.blitWrite (Tex.jacobiOf pr.read st4.divergence))^[pressureIters]
        st4.pressure }
  let st6 := { st5 with
    velocity := st5.velocity.blitWrite
      (Tex.gradSubOf st5.pressure.read st5.velocity.read) }
  let st7 := { st6 with
    velocity := st6.velocity.blitWrite
      (Tex.advectOf st6.velocity.read st6.velocity.read dt velDiss) }
  { st7 with
    dye := st7.dye.blitWrite
      (Tex.advectOf st7.velocity.read st7.dye.read dt densDiss) }

/-- The field portion of one tick: splat injection followed by the simulation
passes. -/
def tickFields (curlStrength dt velDiss densDiss pressureValue : ℚ)
    (pressureIters : ℕ) (radius : ℚ) (splats : List Splat)
    (st : FieldState) : FieldState :=
  simPasses curlStrength dt velDiss densDiss pressureValue pressureIters
    (applySplats radius splats st)

/-! ## Pressure solve on a concrete grid (clear shader lines 443-454,
pressure shader lines 784-806, update lines 1224-1239) -/

/-- A texture's texel values, indexed by integer coordinates. -/
def Grid := ℤ → ℤ → ℚ

/-- Clamp-to-edge sampling of a `w × h` texture. -/
def sampleClamped (w h : ℕ) (g : Grid) (x y : ℤ) : ℚ :=
  g (max 0 (min ((w : ℤ) - 1) x)) (max 0 (min ((h : ℤ) - 1) y))

/-- The clear shader: `gl_FragColor = value * texture2D(uTexture, vUv)`. -/
def clearShaderPass (w h : ℕ) (value : ℚ) (src : Grid) : Grid :=
  fun x y => value * sampleClamped w h src x y

/-- The pressure shader: one Jacobi relaxation step,
`pressure = (L + R + B + T - divergence) * 0.25` with clamp-to-edge
neighbor samples. -/
def pressureShaderPass (w h : ℕ) (pres div : Grid) : Grid :=
  fun x y =>
    let L := sampleClamped w h pres (x - 1) y
    let R := sampleClamped w h pres (x + 1) y
    let T := sampleClamped w h pres x (y + 1)
    let B := sampleClamped w h pres x (y - 1)
    (L + R + B + T - sampleClamped w h div x y) * (1 / 4)

/-- A double-buffered grid. -/
structure DoubleGrid where
  read : Grid
  write : Grid

def DoubleGrid.swap (t : DoubleGrid) : DoubleGrid := ⟨t.write, t.read⟩

/-- Lines 1224-1229: render `clearShader` (scaling by `config.PRESSURE`) from
the read buffer into the write buffer, then `swap()`. -/
def clearPressure (w h : ℕ) (value : ℚ) (pr : DoubleGrid) : DoubleGrid :=
  (DoubleGrid.mk pr.read (clearShaderPass w h value pr.read)).swap

/-- One iteration of the pressure loop (lines 1235-1239): render the pressure
shader from the read buffer into the write buffer, then `swap()`. -/
def pressureIteration (w h : ℕ) (div : Grid) (pr : DoubleGrid) : DoubleGrid :=
  (DoubleGrid.mk pr.read (pressureShaderPass w h pr.read div)).swap

/-- The full pressure section of a tick: decay-clear, then the configured
number of Jacobi iterations. -/
def pressureSolve (w h : ℕ) (value : ℚ) (iters : ℕ) (div : Grid)
    (pr : DoubleGrid) : DoubleGrid :=
  (pressureIteration w h div)^[iters] (clearPressure w h value pr)

/-! # Theorems -/

/-! ## Helper lemmas for the shader-variant cache -/

lemma setKeywords_caches (ks : List (List ℕ)) (m : MaterialState) :
    ∃ p, findProgram (keywordsHash ks) (setKeywords ks m).programs = some p
      ∧ (setKeywords ks m).activeProgram = some p := by
  unfold setKeywords
  cases hfind : findProgram (keywordsHash ks) m.programs with
  | some q =>
      simp only [hfind]
      by_cases hq : some q = m.activeProgram
      · rw [if_pos hq]; exact ⟨q, hfind, hq.symm⟩
      · rw [if_neg hq]; exact ⟨q, hfind, rfl⟩
  | none =>
      simp only [hfind]
      by_cases ha : some m.nextProgram = m.activeProgram
      · rw [if_pos ha]; exact ⟨m.nextProgram, by simp [findProgram], ha.symm⟩
      · rw [if_neg ha]; exact ⟨m.nextProgram, by simp [findProgram], rfl⟩

lemma setKeywords_of_cached_active (ks : List (List ℕ)) (m : MaterialState)
    (p : ℕ) (hfind : findProgram (keywordsHash ks) m.programs = some p)
    (hact : m.activeProgram = some p) : setKeywords ks m = m := by
  unfold setKeywords
  simp only [hfind]
  rw [if_pos hact.symm]

/-- C1 (counterexample): the claim "for every two distinct keyword sets the
cache never returns the same compiled program for both" is false: the
distinct keyword sets {"Aa"} (codes [65, 97]) and {"BB"} (codes [66, 66])
have colliding additive hashes (both 2112), so the second `setKeywords`
call finds and keeps the first set's compiled program — no new program is
compiled and the active program is unchanged. -/
theorem setKeywords_hash_collision_counterexample :
    ([65, 97] : List ℕ) ≠ [66, 66]
    ∧ hashCode [65, 97] = hashCode [66, 66]
    ∧ (setKeywords [[66, 66]] (setKeywords [[65, 97]] initialMaterial)).activeProgram
        = (setKeywords [[65, 97]] initialMaterial).activeProgram
    ∧ (setKeywords [[66, 66]] (setKeywords [[65, 97]] initialMaterial)).nextProgram
        = (setKeywords [[65, 97]] initialMaterial).nextProgram
    ∧ (setKeywords [[65, 97]] initialMaterial).nextProgram = 1 := by
  decide

/-- C1 (amended): for every keyword set, a repeated `setKeywords` call with
the same set, in any order, reuses the cached program without compiling a
new one (the whole material state is unchanged); distinct keyword sets,
however, may share a program when their additive hashes collide. -/
theorem setKeywords_perm_reuses_program (ks1 ks2 : List (List ℕ))
    (m : MaterialState) (hperm : ks1.Perm ks2) :
    setKeywords ks2 (setKeywords ks1 m) = setKeywords ks1 m := by
  obtain ⟨p, hfind, hact⟩ := setKeywords_caches ks1 m
  have hh : keywordsHash ks2 = keywordsHash ks1 :=
    ((hperm.map hashCode).sum_eq).symm
  exact setKeywords_of_cached_active ks2 _ p (hh ▸ hfind) hact

/-- C1 (witness): the keyword lists ["SHADING", "BLOOM"] (abbreviated to
single character codes) in the two orders reuse one cached program. -/
theorem setKeywords_perm_reuses_program_witness :
    ([[65], [66]] : List (List ℕ)).Perm [[66], [65]]
    ∧ setKeywords [[66], [65]] (setKeywords [[65], [66]] initialMaterial)
        = setKeywords [[65], [66]] initialMaterial :=
  ⟨by decide, setKeywords_perm_reuses_program _ _ _ (by decide)⟩

/-! ## Read/write disjointness of double buffers -/

lemma applyDOp_read_ne_write (s : DoubleFBO × ℕ) (op : DOp)
    (h : s.1.read.id ≠ s.1.write.id) :
    (applyDOp s op).1.read.id ≠ (applyDOp s op).1.write.id := by
  cases op with
  | swap => simpa [applyDOp, DoubleFBO.swap] using h.symm
  | blitWrite v => simpa [applyDOp] using h
  | resize w hh =>
      simp only [applyDOp]
      by_cases hc : s.1.width = w ∧ s.1.height = hh
      · simpa [resizeDoubleFBO, hc] using h
      · simp [resizeDoubleFBO, hc, resizeFBO, createFBO]

lemma runDOps_read_ne_write (ops : List DOp) :
    ∀ s : DoubleFBO × ℕ, s.1.read.id ≠ s.1.write.id →
      (runDOps s ops).1.read.id ≠ (runDOps s ops).1.write.id := by
  induction ops with
  | nil => intro s h; exact h
  | cons op rest ih =>
      intro s h
      exact ih (applyDOp s op) (applyDOp_read_ne_write s op h)

/-- C2: starting from `createDoubleFBO` and running any sequence of tick
operations (render-into-write passes, `swap()`s and resizes), the read and
write buffers of a double render target are always two distinct backing
targets. -/
theorem doubleFBO_read_write_distinct (alloc w h : ℕ) (ops : List DOp) :
    (runDOps (createDoubleFBO alloc w h) ops).1.read.id
      ≠ (runDOps (createDoubleFBO alloc w h) ops).1.write.id := by
  apply runDOps_read_ne_write
  simp [createDoubleFBO, createFBO]

/-! ## Time-step clamp -/

/-- C3: the time step computed at the top of every tick is at most 1/60 of a
second (the source clamps to 0.016 s, which is below 1/60 s), whatever
wall-clock time elapsed since the previous tick. -/
theorem computeDt_le_one_sixtieth (nowMs lastTimeMs : ℚ) :
    computeDt nowMs lastTimeMs ≤ 1 / 60 :=
  le_trans (min_le_right _ _) (by norm_num)

/-! ## Audio gating of the splat injection -/

/-- C4: when `volume * gain ≤ 0.01` the emitter section neither issues a
splat nor changes the smoothed emitter color, and consequently the field
portion of the tick degenerates to precisely the simulation passes
(curl, vorticity, divergence, pressure decay + relaxation, gradient
subtraction, advection) with no splat injection. -/
theorem no_splat_below_activation_threshold (log2 : ℚ → ℚ)
    (sinT cosT sinT13 cosT13 : ℚ) (metrics : Metrics) (gain : ℚ) (c : Rgb)
    (h : metrics.volume * gain ≤ 1 / 100) :
    emitterSection log2 sinT cosT sinT13 cosT13 metrics gain c = (c, [])
    ∧ ∀ (curlStrength dt velDiss densDiss pv radius : ℚ) (pIters : ℕ)
        (st : FieldState),
        tickFields curlStrength dt velDiss densDiss pv pIters radius
            (emitterSection log2 sinT cosT sinT13 cosT13 metrics gain c).2 st
          = simPasses curlStrength dt velDiss densDiss pv pIters st := by
  have h1 : emitterSection log2 sinT cosT sinT13 cosT13 metrics gain c
      = (c, []) := by
    simp only [emitterSection]
    rw [if_neg (not_lt.mpr h)]
  refine ⟨h1, ?_⟩
  intro curlStrength dt velDiss densDiss pv radius pIters st
  rw [h1]
  rfl

/-- C4 (witness): a silent frame with gain 1 issues no splat and leaves the
emitter color untouched. -/
theorem no_splat_below_activation_threshold_witness :
    (0 : ℚ) * 1 ≤ 1 / 100
    ∧ emitterSection (fun _ => 0) 0 0 0 0 ⟨0, 0, 0, 0, 0⟩ 1 ⟨0, 0, 0⟩
        = (⟨0, 0, 0⟩, []) :=
  ⟨by norm_num,
    (no_splat_below_activation_threshold (fun _ => 0) 0 0 0 0 ⟨0, 0, 0, 0, 0⟩ 1
      ⟨0, 0, 0⟩ (by norm_num)).1⟩

/-! ## Content-preserving resize -/

/-- C5: resizing a double-buffered target to genuinely new dimensions gives a
newly allocated read buffer whose contents are a copy-shader blit of the
previous read contents, and a freshly allocated write buffer cleared to
the clear color, holding no prior content. -/
theorem resizeDoubleFBO_copies_read_clears_write (alloc : ℕ) (t : DoubleFBO)
    (w h : ℕ) (hne : ¬(t.width = w ∧ t.height = h)) :
    (resizeDoubleFBO alloc t w h).1.read.content = Tex.copyBlit t.read.content
    ∧ (resizeDoubleFBO alloc t w h).1.write.content = Tex.fill 0 0 0 1
    ∧ (resizeDoubleFBO alloc t w h).1.read.id = alloc
    ∧ (resizeDoubleFBO alloc t w h).1.write.id = alloc + 1
    ∧ (resizeDoubleFBO alloc t w h).2 = alloc + 2
    ∧ (resizeDoubleFBO alloc t w h).1.width = w
    ∧ (resizeDoubleFBO alloc t w h).1.height = h := by
  simp [resizeDoubleFBO, hne, resizeFBO, createFBO]

/-- C5 (witness): resizing a fresh 4x4 double target to 8x8 copies the read
contents and clears the write buffer. -/
theorem resizeDoubleFBO_copies_read_clears_write_witness :
    ¬((createDoubleFBO 0 4 4).1.width = 8 ∧ (createDoubleFBO 0 4 4).1.height = 8)
    ∧ (resizeDoubleFBO 2 (createDoubleFBO 0 4 4).1 8 8).1.read.content
        = Tex.copyBlit (createDoubleFBO 0 4 4).1.read.content
    ∧ (resizeDoubleFBO 2 (createDoubleFBO 0 4 4).1 8 8).1.write.content
        = Tex.fill 0 0 0 1 :=
  ⟨by decide,
    (resizeDoubleFBO_copies_read_clears_write 2 _ 8 8 (by decide)).1,
    (resizeDoubleFBO_copies_read_clears_write 2 _ 8 8 (by decide)).2.1⟩

/-- C6: resizing a double-buffered target to its current dimensions is the
identity: the very same target value is returned and the allocator is
untouched (no new buffer is created), so every field is unchanged. -/
theorem resizeDoubleFBO_same_size_noop (alloc : ℕ) (t : DoubleFBO) (w h : ℕ)
    (hw : t.width = w) (hh : t.height = h) :
    resizeDoubleFBO alloc t w h = (t, alloc) := by
  simp [resizeDoubleFBO, hw, hh]

/-- C6 (witness): resizing a fresh 4x4 double target to 4x4 returns it
unchanged without allocating. -/
theorem resizeDoubleFBO_same_size_noop_witness :
    (createDoubleFBO 0 4 4).1.width = 4
    ∧ (createDoubleFBO 0 4 4).1.height = 4
    ∧ resizeDoubleFBO (createDoubleFBO 0 4 4).2 (createDoubleFBO 0 4 4).1 4 4
        = ((createDoubleFBO 0 4 4).1, (createDoubleFBO 0 4 4).2) :=
  ⟨rfl, rfl, resizeDoubleFBO_same_size_noop _ _ _ _ rfl rfl⟩

/-! ## Pressure initialization and relaxation -/

lemma pressureIteration_iterate_read (w h : ℕ) (div : Grid) :
    ∀ (n : ℕ) (t : DoubleGrid),
      ((pressureIteration w h div)^[n] t).read
        = (fun p => pressureShaderPass w h p div)^[n] t.read := by
  intro n
  induction n with
  | zero => intro t; rfl
  | succ n ih =>
      intro t
      rw [Function.iterate_succ_apply, Function.iterate_succ_apply]
      exact ih (pressureIteration w h div t)

/-- C7: each tick's pressure section first scales the previous pressure
contents by the decay value (it does not zero them), then performs exactly
the configured number of Jacobi iterations — each computing
`(pL + pR + pT + pB - divergence) / 4` from the current estimate into the
other buffer and swapping — so the final read buffer is exactly
`iters` relaxation steps applied to the decayed field; the defaults are
decay 0.8 and 20 iterations. -/
theorem pressure_decay_then_jacobi_iterations (w h : ℕ) (value : ℚ)
    (iters : ℕ) (div : Grid) (pr : DoubleGrid) :
    (pressureSolve w h value iters div pr).read
      = (fun p => pressureShaderPass w h p div)^[iters]
          (clearShaderPass w h value pr.read)
    ∧ (∀ (src : Grid) (x y : ℤ),
        clearShaderPass w h value src x y = value * sampleClamped w h src x y)
    ∧ (∀ (p d : Grid) (x y : ℤ),
        pressureShaderPass w h p d x y
          = (sampleClamped w h p (x - 1) y + sampleClamped w h p (x + 1) y
              + sampleClamped w h p x (y + 1) + sampleClamped w h p x (y - 1)
              - sampleClamped w h d x y) / 4)
    ∧ config.PRESSURE = 4 / 5 ∧ config.PRESSURE_ITERATIONS = 20 := by
  refine ⟨?_, fun src x y => rfl, ?_, rfl, rfl⟩
  · exact pressureIteration_iterate_read w h div iters (clearPressure w h value pr)
  · intro p d x y
    simp only [pressureShaderPass]
    ring

/-! ## Frequency-to-hue mapping -/

/-- C8: the chroma mapping is a function of the frequency alone; for any
logarithm function agreeing with `Math.log2` at 1 (where `log2 1 = 0`),
a 440 Hz frame maps to note 69, chroma 9 and hue 9/12 = 0.75, and every
frequency at or below 20 Hz keeps the default hue 0. -/
theorem chroma_mapping_deterministic (log2 : ℚ → ℚ) (h : log2 1 = 0) :
    noteOf log2 440 = 69
    ∧ chromaOf log2 440 = 9
    ∧ targetHueOf log2 440 = 3 / 4
    ∧ ∀ freq : ℚ, freq ≤ 20 → targetHueOf log2 freq = 0 := by
  have hnote : noteOf log2 440 = 69 := by
    unfold noteOf
    rw [show (440 : ℚ) / 440 = 1 by norm_num, h]
    ring
  have htr1 : jsTrunc ((69 : ℚ) / 12) = 5 := by
    unfold jsTrunc
    rw [if_pos (by norm_num : (0 : ℚ) ≤ 69 / 12)]
    norm_num
  have hmod1 : jsMod (69 : ℚ) 12 = 9 := by
    unfold jsMod
    rw [htr1]
    norm_num
  have htr2 : jsTrunc (((9 : ℚ) + 12) / 12) = 1 := by
    unfold jsTrunc
    rw [if_pos (by norm_num : (0 : ℚ) ≤ (9 + 12) / 12)]
    norm_num
  have hmod2 : jsMod ((9 : ℚ) + 12) 12 = 9 := by
    unfold jsMod
    rw [htr2]
    norm_num
  have hchroma : chromaOf log2 440 = 9 := by
    unfold chromaOf
    rw [hnote, hmod1, hmod2]
  refine ⟨hnote, hchroma, ?_, ?_⟩
  · unfold targetHueOf
    rw [if_pos (by norm_num : (440 : ℚ) > 20), hchroma]
    norm_num
  · intro freq hfreq
    unfold targetHueOf
    rw [if_neg (not_lt.mpr hfreq)]

/-- C8 (witness): instantiated at the function that is constantly 0 (which
agrees with `Math.log2` at 1), a 440 Hz frame yields hue 0.75. -/
theorem chroma_mapping_deterministic_witness :
    (fun _ : ℚ => (0 : ℚ)) 1 = 0
    ∧ targetHueOf (fun _ : ℚ => 0) 440 = 3 / 4 :=
  ⟨rfl, (chroma_mapping_deterministic (fun _ : ℚ => 0) rfl).2.2.1⟩

/-! ## Bloom mip-chain shape -/

lemma bloomLevelsGo_length_le (resW resH : ℕ) :
    ∀ (fuel i : ℕ), (bloomLevelsGo resW resH i fuel).length ≤ fuel := by
  intro fuel
  induction fuel with
  | zero => intro i; simp [bloomLevelsGo]
  | succ fuel ih =>
      intro i
      simp only [bloomLevelsGo]
      split
      · simp
      · simpa using Nat.succ_le_succ (ih (i + 1))

lemma bloomLevelsGo_mem (resW resH : ℕ) :
    ∀ (fuel i : ℕ) (p : ℕ × ℕ), p ∈ bloomLevelsGo resW resH i fuel →
      2 ≤ p.1 ∧ 2 ≤ p.2 := by
  intro fuel
  induction fuel with
  | zero => intro i p hp; simp [bloomLevelsGo] at hp
  | succ fuel ih =>
      intro i p hp
      simp only [bloomLevelsGo] at hp
      by_cases hc : resW >>> (i + 1) < 2 ∨ resH >>> (i + 1) < 2
      · rw [if_pos hc] at hp; simp at hp
      · rw [if_neg hc] at hp
        push_neg at hc
        rcases List.mem_cons.mp hp with h1 | h2
        · rw [h1]; exact hc
        · exact ih (i + 1) p h2

lemma bloomLevelsGo_getElem (resW resH : ℕ) :
    ∀ (fuel i j : ℕ) (p : ℕ × ℕ),
      (bloomLevelsGo resW resH i fuel)[j]? = some p →
      p = (resW >>> (i + 1 + j), resH >>> (i + 1 + j)) := by
  intro fuel
  induction fuel with
  | zero => intro i j p hp; simp [bloomLevelsGo] at hp
  | succ fuel ih =>
      intro i j p hp
      simp only [bloomLevelsGo] at hp
      by_cases hc : resW >>> (i + 1) < 2 ∨ resH >>> (i + 1) < 2
      · rw [if_pos hc] at hp; simp at hp
      · rw [if_neg hc] at hp
        cases j with
        | zero =>
            rw [List.getElem?_cons_zero] at hp
            cases hp
            rfl
        | succ j =>
            rw [List.getElem?_cons_succ] at hp
            have harr : i + 1 + 1 + j = i + 1 + (j + 1) := by omega
            have := ih (i + 1) j p hp
            rw [harr] at this
            exact this

/-- C9: for every base resolution and every `BLOOM_ITERATIONS` value, the
bloom mip chain has at most `BLOOM_ITERATIONS` levels, every allocated
level has both dimensions at least 2 (the loop breaks before allocating a
smaller one), and each level halves the dimensions of the previous one. -/
theorem bloom_mip_chain_bounds (resW resH iters : ℕ) :
    (initBloomFramebuffers resW resH iters).length ≤ iters
    ∧ (∀ p ∈ initBloomFramebuffers resW resH iters, 2 ≤ p.1 ∧ 2 ≤ p.2)
    ∧ ∀ (j : ℕ) (p q : ℕ × ℕ),
        (initBloomFramebuffers resW resH iters)[j]? = some p →
        (initBloomFramebuffers resW resH iters)[j + 1]? = some q →
        q.1 = p.1 / 2 ∧ q.2 = p.2 / 2 := by
  refine ⟨bloomLevelsGo_length_le resW resH iters 0,
    fun p hp => bloomLevelsGo_mem resW resH iters 0 p hp, ?_⟩
  intro j p q hp hq
  have hp1 := bloomLevelsGo_getElem resW resH iters 0 j p hp
  have hq1 := bloomLevelsGo_getElem resW resH iters 0 (j + 1) q hq
  have e1 : 0 + 1 + (j + 1) = (0 + 1 + j) + 1 := by omega
  rw [hp1, hq1, e1, Nat.shiftRight_succ, Nat.shiftRight_succ]
  exact ⟨rfl, rfl⟩

/-! ## Bloom early-out -/

/-- C10 (counterexample): the claim describes the untouched bloom destination
as "initially transparent black", but a freshly created render target is
cleared with the context clear color (0, 0, 0, 1) — opaque black, with
alpha 1, not 0. -/
theorem bloom_destination_not_transparent_black :
    (createFBO 0 256 256).1.content = Tex.fill 0 0 0 1
    ∧ (createFBO 0 256 256).1.content ≠ Tex.fill 0 0 0 0 := by
  constructor
  · rfl
  · simp [createFBO]

/-- C10 (amended): if the bloom mip chain has fewer than two levels, the
bloom pass returns immediately — no prefilter, blur, or final stage runs —
so neither the mip levels nor the destination texture change, the
destination keeps its initial contents (cleared to opaque black
(0, 0, 0, 1)), and the display pass still binds that stale texture as
`uBloom` whenever bloom is enabled. -/
theorem applyBloom_early_return (threshold softKnee intensity : ℚ)
    (source destination : Tex) (levels : List Tex) (alloc w h : ℕ)
    (hlen : levels.length < 2) :
    applyBloom threshold softKnee intensity source destination levels
      = (levels, destination)
    ∧ displayUBloom true
        (applyBloom threshold softKnee intensity source destination levels).2
      = some destination
    ∧ (createFBO alloc w h).1.content = Tex.fill 0 0 0 1 := by
  have h1 : applyBloom threshold softKnee intensity source destination levels
      = (levels, destination) := by
    unfold applyBloom
    rw [if_pos hlen]
  exact ⟨h1, by rw [h1]; rfl, rfl⟩

/-- C10 (witness): with a single-level mip chain the bloom pass leaves the
destination exactly as it was. -/
theorem applyBloom_early_return_witness :
    ([Tex.fill 0 0 0 1] : List Tex).length < 2
    ∧ applyBloom (3 / 5) (7 / 10) (4 / 5) (Tex.fill 0 0 0 1)
        (Tex.fill 0 0 0 1) [Tex.fill 0 0 0 1]
      = ([Tex.fill 0 0 0 1], Tex.fill 0 0 0 1) :=
  ⟨by decide,
    (applyBloom_early_return (3 / 5) (7 / 10) (4 / 5) (Tex.fill 0 0 0 1)
      (Tex.fill 0 0 0 1) [Tex.fill 0 0 0 1] 0 1 1 (by decide)).1⟩
